import Mathlib

/-!
Shallow embedding of `strongMan/apps/server_connections/models/connections.py`:
the connection-configuration compiler (`Connection.dict`), the lifecycle
operations (`load` / `start` / `unload` / `stop`), the state resolver
(`Connection.state`) and the cascade-delete signal handler
(`delete_all_connected_models`), together with theorems settling the claims
about them.

Python `OrderedDict` values are modelled as association lists
(`List (String × Value)`): assignment `od[k] = v` replaces the value in place
when the key exists (keeping its position) and appends otherwise
(`odInsert`); `od.update(other)` performs that assignment for every pair of
`other` in order (`odUpdate`).  Python exceptions are modelled with `Except`;
daemon calls are modelled by a record of response functions handed to the
operation, and each operation returns the ordered trace of the externally
visible actions it performed.
-/

namespace StrongMan

/-- A value stored in a configuration document: a string, a list of
strings, or a nested ordered mapping. -/
inductive Value where
  | str : String → Value
  | strList : List String → Value
  | dict : List (String × Value) → Value
deriving BEq, Repr

/-- `OrderedDict` assignment `od[k] = v`: replace in place if the key is
present (keeping its position), append otherwise. -/
def odInsert : List (String × Value) → String → Value → List (String × Value)
  | [], k, v => [(k, v)]
  | p :: ps, k, v => if p.1 = k then (k, v) :: ps else p :: odInsert ps k v

/-- `OrderedDict.update(other)`: assign every pair of `other` in order. -/
def odUpdate (od : List (String × Value)) (frag : List (String × Value)) :
    List (String × Value) :=
  frag.foldl (fun acc p => odInsert acc p.1 p.2) od

/-- Key lookup in an ordered mapping. -/
def odLookup : List (String × Value) → String → Option Value
  | [], _ => none
  | p :: ps, k => if p.1 = k then some p.2 else odLookup ps k

/-- A Python value of the types relevant to the `send_certreq` comparison:
`None`, a `bool`, or a `str`.  Python `==` between values of distinct types
among these is `False` (`bool` is only numeric-equal to numbers, never to a
string). -/
inductive PyVal where
  | pyNone : PyVal
  | pyBool : Bool → PyVal
  | pyStr : String → PyVal
deriving DecidableEq, Repr

/-- Python `==` on the modelled value domain. -/
def pyEq : PyVal → PyVal → Bool
  | .pyNone, .pyNone => true
  | .pyBool a, .pyBool b => a == b
  | .pyStr a, .pyStr b => a == b
  | _, _ => false

/-- The value of a Django `BooleanField(null=True)` as a Python value:
`None`, `True` or `False`. -/
def pyOfOptBool : Option Bool → PyVal
  | none => .pyNone
  | some b => .pyBool b

/-- Python truthiness of a nullable boolean field. -/
def pyTruthy : Option Bool → Bool
  | some true => true
  | _ => false

/-- `str(...)` of a nullable boolean field's value. -/
def pyStrOfOptBool : Option Bool → String
  | none => "None"
  | some true => "True"
  | some false => "False"

/-- A `Child` row as `Connection.dict` consumes it: its `name`, and the
sub-document `child.dict()` produces for it (`Child.dict` lives in
`models/specific.py`, outside the analysed file, so the sub-document is
carried as data). -/
structure Child where
  name : String
  childDict : Value
deriving BEq, Repr

/-- An authentication endpoint as `Connection.dict`/`Connection.load`
consume it: the configuration fragment its `subclass().dict()` produces,
whether it carries a private key, and the key descriptor
(`models/authentication.py` is outside the analysed file, so these are
carried as data). -/
structure Authentication where
  fragment : List (String × Value)
  hasPrivateKey : Bool
  keyDict : Value
deriving BEq, Repr

/-- A certificate row as `Connection.load` consumes it
(`Certificate.objects.all()`): its `type` and `der_container`. -/
structure Certificate where
  typ : String
  derContainer : String
deriving DecidableEq, Repr

/-- A Python exception raised by the compiler itself. -/
inductive PyExc where
  | indexError : PyExc
deriving DecidableEq, Repr

/-- The `Connection` model row together with its owned sub-entity rows, as
`Connection.dict` and the lifecycle methods read them. -/
structure Connection where
  profile : String
  version : String
  pool : Option String
  send_certreq : Option Bool
  enabled : Bool
  connection_type : String
  initiate : Option Bool
  server_children : List Child
  server_local_addresses : List String
  server_remote_addresses : List String
  server_proposals : List String
  server_local : List Authentication
  server_remote : List Authentication
deriving BEq, Repr

/-- `Connection.is_remote_access`. -/
def Connection.is_remote_access (c : Connection) : Bool :=
  c.connection_type == "remote_access"

/-- `Connection.is_site_to_site`. -/
def Connection.is_site_to_site (c : Connection) : Bool :=
  c.connection_type == "site_to_site"

/-- `Connection.dict` (lines 36–69): builds the ordered `ike_sa` document —
`pools` when a pool is set, `local_addrs`/`remote_addrs` guarded by the
first list element being non-empty (an empty list raises `IndexError` at
`local_address[0]`), then `version`, `proposals`, `children`,
`send_certreq` (comparing the boolean field to the string `'1'`),
`send_cert`, then the local and remote authentication fragments merged in
via `update`, the whole wrapped as `{profile: ike_sa}`. -/
def Connection.dict (c : Connection) :
    Except PyExc (List (String × Value)) :=
  let children : List (String × Value) :=
    c.server_children.map fun ch => (ch.name, ch.childDict)
  let ike0 : List (String × Value) :=
    match c.pool with
    | some poolname => odInsert [] "pools" (.strList [poolname])
    | none => []
  match c.server_local_addresses with
  | [] => .error .indexError
  | a0 :: _ =>
    let ike1 :=
      if a0 ≠ "" then
        odInsert ike0 "local_addrs" (.strList c.server_local_addresses)
      else ike0
    match c.server_remote_addresses with
    | [] => .error .indexError
    | b0 :: _ =>
      let ike2 :=
        if b0 ≠ "" then
          odInsert ike1 "remote_addrs" (.strList c.server_remote_addresses)
        else ike1
      let ike3 := odInsert ike2 "version" (.str c.version)
      let ike4 := odInsert ike3 "proposals" (.strList c.server_proposals)
      let ike5 := odInsert ike4 "children" (.dict children)
      let ike6 :=
        if pyEq (pyOfOptBool c.send_certreq) (.pyStr "1") then
          odInsert ike5 "send_certreq" (.str "yes")
        else
          odInsert ike5 "send_certreq" (.str "no")
      let ike7 :=
        odInsert ike6 "send_cert"
          (.str (if c.connection_type = "remote_access" then "always"
                 else "ifasked"))
      let ike8 := c.server_local.foldl (fun acc a => odUpdate acc a.fragment) ike7
      let ike9 := c.server_remote.foldl (fun acc a => odUpdate acc a.fragment) ike8
      .ok [(c.profile, .dict ike9)]

/-- Modelled from the spec: the `State` enumeration of
`models/common.py` (not part of the analysed file).  The spec (§4.3) names
the states Unloaded, Loaded, Down, Connecting, Established; their `.value`
strings are taken as those names — the claims depend only on the values
being pairwise distinct. -/
inductive State where
  | unloaded | loaded | down | connecting | established
deriving DecidableEq, Repr

/-- `.value` of a `State` member. -/
def State.value : State → String
  | .unloaded => "Unloaded"
  | .loaded => "Loaded"
  | .down => "Down"
  | .connecting => "Connecting"
  | .established => "Established"

/-- An exception raised by a `ViciWrapper` (daemon-client) call. -/
inductive ViciExc where
  | configRejected : ViciExc
  | daemonUnreachable : ViciExc
deriving DecidableEq, Repr

/-- A log line returned by `initiate`/`terminate_connection`
(the `log['message']` field). -/
structure Logline where
  message : String
deriving DecidableEq, Repr

/-- Modelled from the spec: the `ViciWrapper` daemon client
(`helper_apps/vici/wrapper`, not part of the analysed file), per §6 of the
spec — each operation either returns its result or raises, modelled as a
record of response functions. -/
structure Daemon where
  unload_connection : String → Except ViciExc Unit
  load_connection : List (String × Value) → Except ViciExc Unit
  load_key : Value → Except ViciExc Unit
  load_certificate : String → String → String → Except ViciExc Unit
  initiate_child : String → String → Except ViciExc (List Logline)
  terminate_connection : String → Except ViciExc (List Logline)
  is_connection_loaded : String → Except ViciExc Bool
  get_connection_state : String → Except ViciExc String

/-- `Connection.state` (lines 146–168), as a function of the daemon's
responses.  The passive branch (`is_remote_access() or is_site_to_site()
and not initiate`) asks whether the profile is loaded and catches every
exception to Unloaded; the active branch asks for the connection state,
maps Down/Established/Connecting through, catches every exception to Down —
and, when the query succeeds with any other state, falls off the `if/elif`
chain and returns Python `None` (modelled as `none`). -/
def Connection.state (c : Connection) (d : Daemon) : Option String :=
  if c.is_remote_access || (c.is_site_to_site && !(pyTruthy c.initiate)) then
    match d.is_connection_loaded c.profile with
    | .ok true => some State.loaded.value
    | .ok false => some State.unloaded.value
    | .error _ => some State.unloaded.value
  else
    match d.get_connection_state c.profile with
    | .ok s =>
      if s = State.down.value then some State.down.value
      else if s = State.established.value then some State.established.value
      else if s = State.connecting.value then some State.connecting.value
      else none
    | .error _ => some State.down.value

/-- An externally visible action performed by a lifecycle operation:
persisting the row (`self.save()` with the current `enabled` value), a
daemon call, or persisting a `LogMessage` row for the connection. -/
inductive Event where
  | save (profile : String) (enabled : Bool)
  | unloadConnection (profile : String)
  | loadConnection (doc : List (String × Value))
  | loadKey (k : Value)
  | loadCertificate (typ flag data : String)
  | initiateChild (child profile : String)
  | logMessage (profile message : String)
  | terminateConnection (profile : String)
deriving BEq, Repr

/-- An exception escaping a lifecycle operation: a Python exception from
the compiler or a daemon-client exception. -/
inductive OpExc where
  | py : PyExc → OpExc
  | vici : ViciExc → OpExc
deriving DecidableEq, Repr

/-- Outcome of a lifecycle operation: the (persisted) connection row, the
ordered trace of externally visible actions, and either normal return or
the escaping exception. -/
structure OpResult where
  conn : Connection
  trace : List Event
  result : Except OpExc Unit

/-- The key-loading loops of `Connection.load` (lines 79–87): for each
authentication endpoint with a private key, `load_key` its descriptor;
a daemon exception aborts the remaining iterations. -/
def loadAuthKeys (d : Daemon) : List Authentication →
    List Event × Except ViciExc Unit
  | [] => ([], .ok ())
  | a :: rest =>
    if a.hasPrivateKey then
      match d.load_key a.keyDict with
      | .error e => ([.loadKey a.keyDict], .error e)
      | .ok _ =>
        let (t, r) := loadAuthKeys d rest
        (.loadKey a.keyDict :: t, r)
    else loadAuthKeys d rest

/-- The certificate-loading loop of `Connection.load` (lines 89–90). -/
def loadCerts (d : Daemon) : List Certificate →
    List Event × Except ViciExc Unit
  | [] => ([], .ok ())
  | c :: rest =>
    match d.load_certificate c.typ "None" c.derContainer with
    | .error e => ([.loadCertificate c.typ "None" c.derContainer], .error e)
    | .ok _ =>
      let (t, r) := loadCerts d rest
      (.loadCertificate c.typ "None" c.derContainer :: t, r)

/-- `Connection.load` (lines 71–90): set `enabled = True` and save, then
`unload_connection(profile)`, compile `dict()`, `load_connection`, load the
private keys of the local and remote endpoints, and load every certificate
of the store.  Any exception after the save escapes with `enabled` already
persisted as true. -/
def Connection.load (c : Connection) (d : Daemon) (certs : List Certificate) :
    OpResult :=
  let c1 := { c with enabled := true }
  let t0 : List Event := [.save c1.profile true]
  match d.unload_connection c1.profile with
  | .error e => ⟨c1, t0 ++ [.unloadConnection c1.profile], .error (.vici e)⟩
  | .ok _ =>
    let t1 := t0 ++ [.unloadConnection c1.profile]
    match c1.dict with
    | .error e => ⟨c1, t1, .error (.py e)⟩
    | .ok doc =>
      match d.load_connection doc with
      | .error e => ⟨c1, t1 ++ [.loadConnection doc], .error (.vici e)⟩
      | .ok _ =>
        let t2 := t1 ++ [.loadConnection doc]
        let (tl, rl) := loadAuthKeys d c1.server_local
        match rl with
        | .error e => ⟨c1, t2 ++ tl, .error (.vici e)⟩
        | .ok _ =>
          let (tr, rr) := loadAuthKeys d c1.server_remote
          match rr with
          | .error e => ⟨c1, t2 ++ tl ++ tr, .error (.vici e)⟩
          | .ok _ =>
            let (tc, rc) := loadCerts d certs
            match rc with
            | .error e => ⟨c1, t2 ++ tl ++ tr ++ tc, .error (.vici e)⟩
            | .ok _ => ⟨c1, t2 ++ tl ++ tr ++ tc, .ok ()⟩

/-- The initiation loop of `Connection.start` (lines 96–99): for each
child in order, `initiate(child.name, profile)`, then persist one
`LogMessage` per returned log line; a daemon exception aborts the
remaining children. -/
def initiateChildren (d : Daemon) (profile : String) :
    List Child → List Event × Except ViciExc Unit
  | [] => ([], .ok ())
  | ch :: rest =>
    match d.initiate_child ch.name profile with
    | .error e => ([.initiateChild ch.name profile], .error e)
    | .ok logs =>
      let evs := Event.initiateChild ch.name profile ::
        logs.map fun l => Event.logMessage profile l.message
      let (t, r) := initiateChildren d profile rest
      (evs ++ t, r)

/-- `Connection.start` (lines 92–99): `load()`, then, if `initiate` is
truthy, run the initiation loop over the children. -/
def Connection.start (c : Connection) (d : Daemon) (certs : List Certificate) :
    OpResult :=
  let lr := c.load d certs
  match lr.result with
  | .error _ => lr
  | .ok _ =>
    if pyTruthy lr.conn.initiate then
      let (t, r) := initiateChildren d lr.conn.profile lr.conn.server_children
      ⟨lr.conn, lr.trace ++ t, r.mapError .vici⟩
    else lr

/-- `Connection.unload` (lines 101–105): set `enabled = False`, save, and
`unload_connection(profile)`. -/
def Connection.unload (c : Connection) (d : Daemon) : OpResult :=
  let c1 := { c with enabled := false }
  ⟨c1, [.save c1.profile false, .unloadConnection c1.profile],
    (d.unload_connection c1.profile).mapError .vici⟩

/-- `Connection.stop` (lines 107–112): `unload()`, then
`terminate_connection(profile)` and persist one `LogMessage` per returned
log line. -/
def Connection.stop (c : Connection) (d : Daemon) : OpResult :=
  let ur := c.unload d
  match ur.result with
  | .error _ => ur
  | .ok _ =>
    match d.terminate_connection ur.conn.profile with
    | .error e =>
      ⟨ur.conn, ur.trace ++ [.terminateConnection ur.conn.profile],
        .error (.vici e)⟩
    | .ok logs =>
      ⟨ur.conn,
        ur.trace ++ Event.terminateConnection ur.conn.profile ::
          logs.map (fun l => Event.logMessage ur.conn.profile l.message),
        .ok ()⟩

/-- A `Child` row as the cascade-delete handler filters it: its primary
key and its (non-null) `connection` foreign key. -/
structure ChildRow where
  id : Nat
  connection : Nat
deriving DecidableEq, Repr

/-- A `Proposal` row: nullable foreign keys `child` and `connection`, as
revealed by the handler's `filter(child=...)` / `filter(connection=...)`. -/
structure ProposalRow where
  id : Nat
  child : Option Nat
  connection : Option Nat
deriving DecidableEq, Repr

/-- An `Address` row: nullable foreign keys `local_ts` / `remote_ts` (to a
child) and `local_addresses` / `remote_addresses` (to a connection). -/
structure AddressRow where
  id : Nat
  local_ts : Option Nat
  remote_ts : Option Nat
  local_addresses : Option Nat
  remote_addresses : Option Nat
deriving DecidableEq, Repr

/-- An `Authentication` row: nullable foreign keys `local` and `remote`
to a connection (`local` is a Lean keyword, so the fields are spelled
`localId` / `remoteId`). -/
structure AuthRow where
  id : Nat
  localId : Option Nat
  remoteId : Option Nat
deriving DecidableEq, Repr

/-- The tables touched by the cascade-delete handler. -/
structure SpecificDB where
  children : List ChildRow
  proposals : List ProposalRow
  addresses : List AddressRow
  authentications : List AuthRow
deriving DecidableEq, Repr

/-- The body of the handler's per-child loop (lines 222–226): delete the
child's proposals, its `local_ts` addresses, its `remote_ts` addresses,
then the child row itself. -/
def deleteChildRows (db : SpecificDB) (childId : Nat) : SpecificDB :=
  let db1 := { db with
    proposals := db.proposals.filter fun p => p.child ≠ some childId }
  let db2 := { db1 with
    addresses := db1.addresses.filter fun a => a.local_ts ≠ some childId }
  let db3 := { db2 with
    addresses := db2.addresses.filter fun a => a.remote_ts ≠ some childId }
  { db3 with children := db3.children.filter fun ch => ch.id ≠ childId }

/-- `delete_all_connected_models` (lines 220–235), the `pre_delete`
handler: for each child of the instance delete its proposals, traffic-
selector addresses and the child; then the instance's own proposals,
local/remote addresses, and the local and remote authentications. -/
def delete_all_connected_models (db : SpecificDB) (inst : Nat) : SpecificDB :=
  let childIds :=
    (db.children.filter fun ch => ch.connection = inst).map (·.id)
  let db1 := childIds.foldl deleteChildRows db
  let db2 := { db1 with
    proposals := db1.proposals.filter fun p => p.connection ≠ some inst }
  let db3 := { db2 with
    addresses := db2.addresses.filter fun a => a.local_addresses ≠ some inst }
  let db4 := { db3 with
    addresses := db3.addresses.filter fun a => a.remote_addresses ≠ some inst }
  let db5 := { db4 with
    authentications := db4.authentications.filter fun a => a.localId ≠ some inst }
  { db5 with
    authentications := db5.authentications.filter fun a => a.remoteId ≠ some inst }

/-! ### Lemmas about the ordered-mapping operations -/

theorem odLookup_insert_self (od : List (String × Value)) (k : String)
    (v : Value) : odLookup (odInsert od k v) k = some v := by
  induction od with
  | nil => simp [odInsert, odLookup]
  | cons p ps ih =>
    by_cases h : p.1 = k
    · simp [odInsert, odLookup, h]
    · simp [odInsert, odLookup, h, ih]

theorem odLookup_insert_ne (od : List (String × Value)) (k k' : String)
    (v : Value) (h : k' ≠ k) :
    odLookup (odInsert od k v) k' = odLookup od k' := by
  have hkk : k ≠ k' := Ne.symm h
  induction od with
  | nil => simp [odInsert, odLookup, hkk]
  | cons p ps ih =>
    by_cases hp : p.1 = k
    · have hp' : p.1 ≠ k' := by rw [hp]; exact hkk
      simp [odInsert, odLookup, hp, hkk, hp']
    · by_cases hp' : p.1 = k'
      · simp [odInsert, odLookup, hp, hp', h]
      · simp [odInsert, odLookup, hp, hp', ih]

theorem odLookup_update_ne (od : List (String × Value))
    (frag : List (String × Value)) (k : String)
    (h : ∀ kv ∈ frag, kv.1 ≠ k) :
    odLookup (odUpdate od frag) k = odLookup od k := by
  induction frag generalizing od with
  | nil => simp [odUpdate]
  | cons p ps ih =>
    have hp : p.1 ≠ k := h p (by simp)
    have hrest : ∀ kv ∈ ps, kv.1 ≠ k := fun kv hkv => h kv (by simp [hkv])
    calc odLookup (odUpdate od (p :: ps)) k
        = odLookup (odUpdate (odInsert od p.1 p.2) ps) k := rfl
      _ = odLookup (odInsert od p.1 p.2) k := ih _ hrest
      _ = odLookup od k := odLookup_insert_ne _ _ _ _ (fun hh => hp hh.symm)

theorem odLookup_foldUpdate_ne (auths : List Authentication)
    (od : List (String × Value)) (k : String)
    (h : ∀ a ∈ auths, ∀ kv ∈ a.fragment, kv.1 ≠ k) :
    odLookup (auths.foldl (fun acc a => odUpdate acc a.fragment) od) k =
      odLookup od k := by
  induction auths generalizing od with
  | nil => simp
  | cons a rest ih =>
    have ha : ∀ kv ∈ a.fragment, kv.1 ≠ k := h a (by simp)
    have hrest : ∀ b ∈ rest, ∀ kv ∈ b.fragment, kv.1 ≠ k :=
      fun b hb => h b (by simp [hb])
    calc odLookup
          ((a :: rest).foldl (fun acc a => odUpdate acc a.fragment) od) k
        = odLookup (rest.foldl (fun acc a => odUpdate acc a.fragment)
            (odUpdate od a.fragment)) k := rfl
      _ = odLookup (odUpdate od a.fragment) k := ih _ hrest
      _ = odLookup od k := odLookup_update_ne _ _ _ ha

/-- Inserting a key absent from the mapping appends it. -/
theorem odInsert_append (od : List (String × Value)) (k : String) (v : Value)
    (h : ∀ p ∈ od, p.1 ≠ k) : odInsert od k v = od ++ [(k, v)] := by
  induction od with
  | nil => simp [odInsert]
  | cons p ps ih =>
    have hp : p.1 ≠ k := h p (by simp)
    have hrest : ∀ q ∈ ps, q.1 ≠ k := fun q hq => h q (by simp [hq])
    simp [odInsert, hp, ih hrest]

/-! ### Concrete fixtures used by witnesses and counterexamples -/

/-- A daemon whose every call succeeds with a neutral answer. -/
def okDaemon : Daemon where
  unload_connection := fun _ => .ok ()
  load_connection := fun _ => .ok ()
  load_key := fun _ => .ok ()
  load_certificate := fun _ _ _ => .ok ()
  initiate_child := fun _ _ => .ok []
  terminate_connection := fun _ => .ok []
  is_connection_loaded := fun _ => .ok false
  get_connection_state := fun _ => .ok State.down.value

/-- A daemon whose every call raises `DaemonUnreachable`. -/
def downDaemon : Daemon where
  unload_connection := fun _ => .error .daemonUnreachable
  load_connection := fun _ => .error .daemonUnreachable
  load_key := fun _ => .error .daemonUnreachable
  load_certificate := fun _ _ _ => .error .daemonUnreachable
  initiate_child := fun _ _ => .error .daemonUnreachable
  terminate_connection := fun _ => .error .daemonUnreachable
  is_connection_loaded := fun _ => .error .daemonUnreachable
  get_connection_state := fun _ => .error .daemonUnreachable

/-- A remote-access connection definition with one address on each side. -/
def raConn : Connection where
  profile := "roadwarrior"
  version := "2"
  pool := none
  send_certreq := none
  enabled := false
  connection_type := "remote_access"
  initiate := none
  server_children := []
  server_local_addresses := ["10.0.0.1"]
  server_remote_addresses := ["10.0.0.2"]
  server_proposals := ["default"]
  server_local := []
  server_remote := []

/-- An actively-initiated site-to-site connection definition. -/
def s2sConn : Connection :=
  { raConn with profile := "gw", connection_type := "site_to_site",
                initiate := some true }

/-! ### C2 — state resolution on daemon failure -/

/-- C2: state resolution never raises: for every connection definition,
if the daemon query raises, `Connection.state` returns Unloaded when the
connection is passive (remote-access, or site-to-site with a falsy
`initiate` flag) and Down when it is an actively-initiated site-to-site
connection.  (`Connection.state` is a total function of the daemon's
responses, so no exception can escape it.) -/
theorem state_daemon_failure_defaults (c : Connection) (d : Daemon)
    (e₁ e₂ : ViciExc) :
    ((c.connection_type = "remote_access" ∨
        (c.connection_type = "site_to_site" ∧ pyTruthy c.initiate = false)) →
      d.is_connection_loaded c.profile = .error e₁ →
      c.state d = some State.unloaded.value) ∧
    (c.connection_type = "site_to_site" → pyTruthy c.initiate = true →
      d.get_connection_state c.profile = .error e₂ →
      c.state d = some State.down.value) := by
  constructor
  · rintro (h | ⟨h, hi⟩) herr
    · simp [Connection.state, Connection.is_remote_access, h, herr]
    · simp [Connection.state, Connection.is_remote_access,
        Connection.is_site_to_site, h, hi, herr]
  · intro h hi herr
    simp [Connection.state, Connection.is_remote_access,
      Connection.is_site_to_site, h, hi, herr]

/-- Witness for C2: on an unreachable daemon, the remote-access fixture
resolves to Unloaded and the actively-initiated site-to-site fixture to
Down. -/
theorem state_daemon_failure_defaults_witness :
    raConn.state downDaemon = some State.unloaded.value ∧
    s2sConn.state downDaemon = some State.down.value :=
  ⟨(state_daemon_failure_defaults raConn downDaemon .daemonUnreachable
      .daemonUnreachable).1 (Or.inl rfl) rfl,
   (state_daemon_failure_defaults s2sConn downDaemon .daemonUnreachable
      .daemonUnreachable).2 rfl rfl rfl⟩

/-! ### C3 — unexpected daemon state on the active branch -/

/-- A daemon that answers the state query with a state outside
{Down, Established, Connecting} (e.g. a rekeying notification). -/
def rekeyingDaemon : Daemon :=
  { okDaemon with get_connection_state := fun _ => .ok "Rekeying" }

/-- C3 (code bug): for the actively-initiated site-to-site fixture, when
the daemon state query succeeds with a state outside
{Down, Established, Connecting}, `Connection.state` falls off the
`if`/`elif` chain and returns Python `None` — not Down as the spec's
default-to-Down policy states. -/
theorem state_unexpected_value_returns_none :
    s2sConn.state rekeyingDaemon = none ∧
    s2sConn.state rekeyingDaemon ≠ some State.down.value := by
  constructor <;> decide

/-! ### The shape of a successful compilation -/

/-- The `ike_sa` mapping built by `Connection.dict` before the
authentication fragments are merged in (steps through `send_cert`),
expressed with `headD` so that it is a total function of the row; it
agrees with `Connection.dict`'s internal value whenever the address lists
are non-empty. -/
def ikeBase (c : Connection) : List (String × Value) :=
  let children : List (String × Value) :=
    c.server_children.map fun ch => (ch.name, ch.childDict)
  let ike0 : List (String × Value) :=
    match c.pool with
    | some poolname => odInsert [] "pools" (.strList [poolname])
    | none => []
  let ike1 :=
    if c.server_local_addresses.headD "" ≠ "" then
      odInsert ike0 "local_addrs" (.strList c.server_local_addresses)
    else ike0
  let ike2 :=
    if c.server_remote_addresses.headD "" ≠ "" then
      odInsert ike1 "remote_addrs" (.strList c.server_remote_addresses)
    else ike1
  let ike3 := odInsert ike2 "version" (.str c.version)
  let ike4 := odInsert ike3 "proposals" (.strList c.server_proposals)
  let ike5 := odInsert ike4 "children" (.dict children)
  let ike6 :=
    if pyEq (pyOfOptBool c.send_certreq) (.pyStr "1") then
      odInsert ike5 "send_certreq" (.str "yes")
    else
      odInsert ike5 "send_certreq" (.str "no")
  odInsert ike6 "send_cert"
    (.str (if c.connection_type = "remote_access" then "always" else "ifasked"))

/-- The full `ike_sa` mapping of a successful compilation: the base with
the local and then the remote authentication fragments merged in. -/
def ikeFull (c : Connection) : List (String × Value) :=
  c.server_remote.foldl (fun acc a => odUpdate acc a.fragment)
    (c.server_local.foldl (fun acc a => odUpdate acc a.fragment) (ikeBase c))

/-- When both address lists are non-empty, `Connection.dict` succeeds and
returns the single-entry mapping `{profile: ikeFull}`. -/
theorem dict_eq_of_ne_nil (c : Connection)
    (hl : c.server_local_addresses ≠ [])
    (hr : c.server_remote_addresses ≠ []) :
    c.dict = .ok [(c.profile, .dict (ikeFull c))] := by
  obtain ⟨a0, la, hla⟩ := List.exists_cons_of_ne_nil hl
  obtain ⟨b0, lb, hlb⟩ := List.exists_cons_of_ne_nil hr
  rw [Connection.dict, ikeFull, ikeBase, hla, hlb]
  simp [hla, hlb]

/-- When an address list is empty, `Connection.dict` raises `IndexError`
(`local_address[0]` / `remote_address[0]` on an empty list). -/
theorem dict_error_of_nil (c : Connection)
    (h : c.server_local_addresses = [] ∨ c.server_remote_addresses = []) :
    c.dict = .error .indexError := by
  rcases h with h | h
  · rw [Connection.dict, h]
  · rw [Connection.dict]
    rcases hc : c.server_local_addresses with _ | ⟨a0, la⟩
    · rfl
    · rw [h]

/-- Looking up `send_certreq` in the base mapping yields the value of the
string-identity comparison of the boolean field with `'1'`. -/
theorem ikeBase_send_certreq (c : Connection) :
    odLookup (ikeBase c) "send_certreq" =
      some (.str (if pyEq (pyOfOptBool c.send_certreq) (.pyStr "1")
                  then "yes" else "no")) := by
  rw [ikeBase]
  by_cases h : pyEq (pyOfOptBool c.send_certreq) (.pyStr "1") <;>
    simp [h,
      odLookup_insert_ne _ _ _ _
        (by simp : ("send_certreq":String) ≠ "send_cert"),
      odLookup_insert_self]

/-- Looking up `local_addrs` in the base mapping: present with the full
address list iff the first address value is non-empty. -/
theorem ikeBase_local_addrs (c : Connection) :
    odLookup (ikeBase c) "local_addrs" =
      (if c.server_local_addresses.headD "" ≠ "" then
        some (.strList c.server_local_addresses) else none) := by
  simp only [ikeBase]
  rcases hp : c.pool with _ | poolname <;>
    simp only [hp] <;> split_ifs <;> simp_all [odInsert, odLookup]

/-- Looking up `remote_addrs` in the base mapping: present with the full
address list iff the first address value is non-empty. -/
theorem ikeBase_remote_addrs (c : Connection) :
    odLookup (ikeBase c) "remote_addrs" =
      (if c.server_remote_addresses.headD "" ≠ "" then
        some (.strList c.server_remote_addresses) else none) := by
  simp only [ikeBase]
  rcases hp : c.pool with _ | poolname <;>
    simp only [hp] <;> split_ifs <;> simp_all [odInsert, odLookup]

/-- Python `bool_field == '1'` is `False` for every value of a nullable
boolean field (`None`, `True`, `False`): `bool`/`NoneType` never equal a
string. -/
theorem pyEq_optBool_str1 (b : Option Bool) :
    pyEq (pyOfOptBool b) (.pyStr "1") = false := by
  rcases b with _ | b <;> rfl

/-- The string form of a nullable boolean field is never `"1"`. -/
theorem pyStrOfOptBool_ne_one (b : Option Bool) : pyStrOfOptBool b ≠ "1" := by
  rcases b with _ | b
  · decide
  · cases b <;> decide

/-! ### C4 — the send_certreq string-identity comparison -/

/-- Helper shared by the send_certreq claims: a successful compilation
whose authentication fragments do not bind `send_certreq` carries the
entry `"no"`. -/
theorem dict_send_certreq_no_aux (c : Connection)
    (doc : List (String × Value)) (hdoc : c.dict = .ok doc)
    (hfl : ∀ a ∈ c.server_local, ∀ kv ∈ a.fragment, kv.1 ≠ "send_certreq")
    (hfr : ∀ a ∈ c.server_remote, ∀ kv ∈ a.fragment, kv.1 ≠ "send_certreq") :
    ∃ ike, doc = [(c.profile, .dict ike)] ∧
      odLookup ike "send_certreq" = some (.str "no") := by
  have hl : c.server_local_addresses ≠ [] := by
    intro h; rw [dict_error_of_nil c (Or.inl h)] at hdoc
    exact absurd hdoc (by simp)
  have hr : c.server_remote_addresses ≠ [] := by
    intro h; rw [dict_error_of_nil c (Or.inr h)] at hdoc
    exact absurd hdoc (by simp)
  have h2 := dict_eq_of_ne_nil c hl hr
  rw [hdoc] at h2
  injection h2 with h3
  subst h3
  refine ⟨ikeFull c, rfl, ?_⟩
  rw [ikeFull, odLookup_foldUpdate_ne _ _ _ hfr, odLookup_foldUpdate_ne _ _ _ hfl,
    ikeBase_send_certreq, pyEq_optBool_str1]
  rfl

/-- C4: for every definition whose authentication fragments do not
themselves bind `send_certreq`, the compiled document's `send_certreq`
entry equals `"yes"` if the flag's string form equals `"1"` and `"no"`
otherwise — the source's comparison is `self.send_certreq == '1'`, a
string-identity comparison on a boolean-typed field, which agrees with
this description on the field's whole value domain. -/
theorem dict_send_certreq_string_identity (c : Connection)
    (doc : List (String × Value)) (hdoc : c.dict = .ok doc)
    (hfl : ∀ a ∈ c.server_local, ∀ kv ∈ a.fragment, kv.1 ≠ "send_certreq")
    (hfr : ∀ a ∈ c.server_remote, ∀ kv ∈ a.fragment, kv.1 ≠ "send_certreq") :
    ∃ ike, doc = [(c.profile, .dict ike)] ∧
      odLookup ike "send_certreq" =
        some (.str (if pyStrOfOptBool c.send_certreq = "1"
                    then "yes" else "no")) := by
  obtain ⟨ike, hik, hlk⟩ := dict_send_certreq_no_aux c doc hdoc hfl hfr
  exact ⟨ike, hik, by
    rw [if_neg (pyStrOfOptBool_ne_one c.send_certreq)]; exact hlk⟩

/-- The `ike_sa` mapping the remote-access fixture compiles to. -/
def raIke : List (String × Value) :=
  [("local_addrs", .strList ["10.0.0.1"]),
   ("remote_addrs", .strList ["10.0.0.2"]),
   ("version", .str "2"),
   ("proposals", .strList ["default"]),
   ("children", .dict []),
   ("send_certreq", .str "no"),
   ("send_cert", .str "always")]

/-- Witness for C4: the remote-access fixture compiles with a
`send_certreq` entry matching the string-identity rule. -/
theorem dict_send_certreq_string_identity_witness :
    ∃ ike, [(raConn.profile, Value.dict raIke)] = [(raConn.profile, .dict ike)] ∧
      odLookup ike "send_certreq" =
        some (.str (if pyStrOfOptBool raConn.send_certreq = "1"
                    then "yes" else "no")) :=
  dict_send_certreq_string_identity raConn [(raConn.profile, .dict raIke)]
    (by rfl) (by simp [raConn]) (by simp [raConn])

/-! ### C10 — the `"yes"` branch is unreachable -/

/-- C10: because `send_certreq` is boolean-typed and the compiler compares
it for identity with the string `"1"`, the comparison is always false and
the compiled `send_certreq` entry is always `"no"` (fragments not binding
the key themselves). -/
theorem dict_send_certreq_always_no (c : Connection)
    (doc : List (String × Value)) (hdoc : c.dict = .ok doc)
    (hfl : ∀ a ∈ c.server_local, ∀ kv ∈ a.fragment, kv.1 ≠ "send_certreq")
    (hfr : ∀ a ∈ c.server_remote, ∀ kv ∈ a.fragment, kv.1 ≠ "send_certreq") :
    ∃ ike, doc = [(c.profile, .dict ike)] ∧
      odLookup ike "send_certreq" = some (.str "no") :=
  dict_send_certreq_no_aux c doc hdoc hfl hfr

/-- Witness for C10: the remote-access fixture's entry is `"no"`. -/
theorem dict_send_certreq_always_no_witness :
    ∃ ike, [(raConn.profile, Value.dict raIke)] = [(raConn.profile, .dict ike)] ∧
      odLookup ike "send_certreq" = some (.str "no") :=
  dict_send_certreq_always_no raConn [(raConn.profile, .dict raIke)]
    (by rfl) (by simp [raConn]) (by simp [raConn])

/-! ### C1 — address-list omission -/

/-- C1 (amended): for every definition whose authentication fragments do
not bind the address keys, a successful compilation emits `local_addrs`
with the full ordered list iff the FIRST local address value is non-empty
and omits the key iff the first value is the empty string (likewise for
`remote_addrs`); on an empty address list the compiler does not omit the
key but raises `IndexError`. -/
theorem dict_addrs_first_element_guard (c : Connection)
    (hfl : ∀ a ∈ c.server_local, ∀ kv ∈ a.fragment,
      kv.1 ≠ "local_addrs" ∧ kv.1 ≠ "remote_addrs")
    (hfr : ∀ a ∈ c.server_remote, ∀ kv ∈ a.fragment,
      kv.1 ≠ "local_addrs" ∧ kv.1 ≠ "remote_addrs") :
    (∀ doc, c.dict = .ok doc →
      ∃ ike, doc = [(c.profile, .dict ike)] ∧
        odLookup ike "local_addrs" =
          (if c.server_local_addresses.headD "" ≠ "" then
            some (.strList c.server_local_addresses) else none) ∧
        odLookup ike "remote_addrs" =
          (if c.server_remote_addresses.headD "" ≠ "" then
            some (.strList c.server_remote_addresses) else none)) ∧
    (c.server_local_addresses = [] ∨ c.server_remote_addresses = [] →
      c.dict = .error .indexError) := by
  refine ⟨?_, dict_error_of_nil c⟩
  intro doc hdoc
  have hl : c.server_local_addresses ≠ [] := by
    intro h; rw [dict_error_of_nil c (Or.inl h)] at hdoc
    exact absurd hdoc (by simp)
  have hr : c.server_remote_addresses ≠ [] := by
    intro h; rw [dict_error_of_nil c (Or.inr h)] at hdoc
    exact absurd hdoc (by simp)
  have h2 := dict_eq_of_ne_nil c hl hr
  rw [hdoc] at h2
  injection h2 with h3
  subst h3
  refine ⟨ikeFull c, rfl, ?_, ?_⟩
  · rw [ikeFull,
      odLookup_foldUpdate_ne _ _ _ (fun a ha kv hkv => (hfr a ha kv hkv).1),
      odLookup_foldUpdate_ne _ _ _ (fun a ha kv hkv => (hfl a ha kv hkv).1),
      ikeBase_local_addrs]
  · rw [ikeFull,
      odLookup_foldUpdate_ne _ _ _ (fun a ha kv hkv => (hfr a ha kv hkv).2),
      odLookup_foldUpdate_ne _ _ _ (fun a ha kv hkv => (hfl a ha kv hkv).2),
      ikeBase_remote_addrs]

/-- Witness for the amended C1: the remote-access fixture (non-empty
first values) emits both address lists, and the same fixture with local
addresses `[""]` compiles with the `local_addrs` key omitted. -/
theorem dict_addrs_first_element_guard_witness :
    (∃ ike, [(raConn.profile, Value.dict raIke)] = [(raConn.profile, .dict ike)] ∧
      odLookup ike "local_addrs" =
        (if raConn.server_local_addresses.headD "" ≠ "" then
          some (.strList raConn.server_local_addresses) else none) ∧
      odLookup ike "remote_addrs" =
        (if raConn.server_remote_addresses.headD "" ≠ "" then
          some (.strList raConn.server_remote_addresses) else none)) :=
  (dict_addrs_first_element_guard raConn (by simp [raConn])
    (by simp [raConn])).1 [(raConn.profile, .dict raIke)] (by rfl)

/-- The remote-access fixture with a local address list whose first entry
is empty but which holds a second, real address. -/
def emptyFirstConn : Connection :=
  { raConn with server_local_addresses := ["", "10.0.0.1"] }

/-- The `ike_sa` mapping `emptyFirstConn` compiles to: no `local_addrs`
key at all. -/
def emptyFirstIke : List (String × Value) :=
  [("remote_addrs", .strList ["10.0.0.2"]),
   ("version", .str "2"),
   ("proposals", .strList ["default"]),
   ("children", .dict []),
   ("send_certreq", .str "no"),
   ("send_cert", .str "always")]

/-- Counterexample to C1 as stated: `emptyFirstConn`'s local address list
is neither empty nor a single empty string, yet the compiled document does
not carry `local_addrs` with the full ordered list — the code tests only
the FIRST element. -/
theorem dict_addrs_claim_counterexample :
    emptyFirstConn.server_local_addresses ≠ [] ∧
    emptyFirstConn.server_local_addresses ≠ [""] ∧
    ¬(∃ ike, emptyFirstConn.dict = .ok [(emptyFirstConn.profile, .dict ike)] ∧
        odLookup ike "local_addrs" =
          some (.strList emptyFirstConn.server_local_addresses)) := by
  refine ⟨by decide, by decide, ?_⟩
  rintro ⟨ike, hik, hlk⟩
  have hd : emptyFirstConn.dict =
      .ok [(emptyFirstConn.profile, Value.dict emptyFirstIke)] := by rfl
  rw [hd] at hik
  injection hik with h3
  have h4 : ike = emptyFirstIke := by simpa using h3.symm
  subst h4
  simp [emptyFirstIke, odLookup] at hlk

/-! ### C5 — key-emission order, merge precedence, wrapping -/

/-- The `ike_sa` mapping as the spec's §4.1 words lay it out: the keys
`pools` (only if a pool is configured), `local_addrs` (if emitted),
`remote_addrs` (if emitted), `version`, `proposals`, `children`,
`send_certreq`, `send_cert`, in exactly that insertion order, as a literal
concatenation. -/
def specIkeBase (c : Connection) : List (String × Value) :=
  (match c.pool with
   | some poolname => [("pools", Value.strList [poolname])]
   | none => [])
  ++ (if c.server_local_addresses.headD "" ≠ "" then
        [("local_addrs", Value.strList c.server_local_addresses)] else [])
  ++ (if c.server_remote_addresses.headD "" ≠ "" then
        [("remote_addrs", Value.strList c.server_remote_addresses)] else [])
  ++ [("version", .str c.version),
      ("proposals", .strList c.server_proposals),
      ("children", .dict (c.server_children.map fun ch => (ch.name, ch.childDict))),
      ("send_certreq",
        .str (if pyEq (pyOfOptBool c.send_certreq) (.pyStr "1")
              then "yes" else "no")),
      ("send_cert",
        .str (if c.connection_type = "remote_access" then "always"
              else "ifasked"))]

/-- The compiled document as the spec describes it: the ordered base,
then the local and then the remote authentication fragments merged in
(later merges may overwrite earlier keys), wrapped as a single-entry
mapping keyed by the profile name. -/
def compileSpecC5 (c : Connection) : List (String × Value) :=
  [(c.profile, Value.dict
    (c.server_remote.foldl (fun acc a => odUpdate acc a.fragment)
      (c.server_local.foldl (fun acc a => odUpdate acc a.fragment)
        (specIkeBase c))))]

/-- The base mapping built by the code agrees with the spec's literal
key order. -/
theorem ikeBase_eq_specIkeBase (c : Connection) :
    ikeBase c = specIkeBase c := by
  simp only [ikeBase, specIkeBase]
  rcases hp : c.pool with _ | poolname <;>
    simp only [hp] <;> split_ifs <;> simp [odInsert]

/-- C5: for every definition on which compilation succeeds (non-empty
address lists), `Connection.dict` produces exactly the spec-ordered
document: `pools` (only with a pool), `local_addrs`/`remote_addrs` (when
emitted), `version`, `proposals`, `children`, `send_certreq`, `send_cert`
in that insertion order, then the local and then the remote
authentication fragments merged in with overwrite semantics, wrapped as
`{profileName: ike_sa}`. -/
theorem dict_emits_spec_order (c : Connection)
    (hl : c.server_local_addresses ≠ [])
    (hr : c.server_remote_addresses ≠ []) :
    c.dict = .ok (compileSpecC5 c) := by
  rw [dict_eq_of_ne_nil c hl hr]
  simp only [ikeFull, compileSpecC5, ikeBase_eq_specIkeBase]

/-- Witness for C5: the remote-access fixture compiles to exactly the
spec-ordered document. -/
theorem dict_emits_spec_order_witness :
    raConn.dict = .ok (compileSpecC5 raConn) :=
  dict_emits_spec_order raConn (by decide) (by decide)

/-! ### C6 — ConfigRejected propagates with enabled already persisted -/

/-- Every branch of `load` returns the row with `enabled` set true: the
flag is assigned and saved before anything can fail. -/
theorem load_conn_eq (c : Connection) (d : Daemon) (certs : List Certificate) :
    (c.load d certs).conn = { c with enabled := true } := by
  rw [Connection.load]
  repeat' split <;> try rfl

/-- C6: if the daemon rejects the compiled configuration during `load`
(`ConfigRejected` from `load_connection`), the exception propagates to the
caller, the persisted row keeps `enabled = true`, and the trace shows the
save happening strictly before any daemon call. -/
theorem load_config_rejected_propagates (c : Connection) (d : Daemon)
    (certs : List Certificate) (doc : List (String × Value))
    (hu : d.unload_connection c.profile = .ok ())
    (hd : Connection.dict { c with enabled := true } = .ok doc)
    (hl : d.load_connection doc = .error .configRejected) :
    (c.load d certs).result = .error (.vici .configRejected) ∧
    (c.load d certs).conn.enabled = true ∧
    (c.load d certs).trace =
      [.save c.profile true, .unloadConnection c.profile,
       .loadConnection doc] := by
  refine ⟨?_, ?_, ?_⟩ <;>
    simp [Connection.load, hu, hd, hl]

/-- A daemon that accepts everything except `load_connection`, which it
rejects. -/
def rejectingDaemon : Daemon :=
  { okDaemon with load_connection := fun _ => .error .configRejected }

/-- Witness for C6: the remote-access fixture against the rejecting
daemon. -/
theorem load_config_rejected_propagates_witness :
    (raConn.load rejectingDaemon []).result = .error (.vici .configRejected) ∧
    (raConn.load rejectingDaemon []).conn.enabled = true ∧
    (raConn.load rejectingDaemon []).trace =
      [.save raConn.profile true, .unloadConnection raConn.profile,
       .loadConnection [(raConn.profile, .dict raIke)]] :=
  load_config_rejected_propagates raConn rejectingDaemon []
    [(raConn.profile, .dict raIke)] rfl rfl rfl

/-! ### C9 — idempotent unload -/

/-- C9: calling `unload` twice in succession produces no error (given the
daemon's idempotent `unload_connection` succeeds), leaves `enabled = false`
after each call, and issues the daemon `unload_connection` call each
time. -/
theorem unload_idempotent (c : Connection) (d : Daemon)
    (hu : d.unload_connection c.profile = .ok ()) :
    ((c.unload d).result = .ok () ∧ (c.unload d).conn.enabled = false ∧
      Event.unloadConnection c.profile ∈ (c.unload d).trace) ∧
    (((c.unload d).conn.unload d).result = .ok () ∧
      ((c.unload d).conn.unload d).conn.enabled = false ∧
      Event.unloadConnection c.profile ∈ ((c.unload d).conn.unload d).trace) := by
  refine ⟨⟨?_, rfl, ?_⟩, ⟨?_, rfl, ?_⟩⟩ <;>
    simp [Connection.unload, hu, Except.mapError]

/-- Witness for C9: the remote-access fixture unloaded twice against the
all-succeeding daemon. -/
theorem unload_idempotent_witness :
    ((raConn.unload okDaemon).result = .ok () ∧
      (raConn.unload okDaemon).conn.enabled = false ∧
      Event.unloadConnection raConn.profile ∈ (raConn.unload okDaemon).trace) ∧
    (((raConn.unload okDaemon).conn.unload okDaemon).result = .ok () ∧
      ((raConn.unload okDaemon).conn.unload okDaemon).conn.enabled = false ∧
      Event.unloadConnection raConn.profile ∈
        ((raConn.unload okDaemon).conn.unload okDaemon).trace) :=
  unload_idempotent raConn okDaemon rfl

/-! ### C7 — start initiates every child and persists the log lines -/

/-- The log lines of a successful `initiate` call. -/
def okLogs : Except ViciExc (List Logline) → List Logline
  | .ok logs => logs
  | .error _ => []

/-- When every child's `initiate` call succeeds, the initiation loop
emits, per child in order, the initiate call followed by one persisted
log message per returned log line, and returns normally. -/
theorem initiateChildren_ok (d : Daemon) (profile : String)
    (children : List Child)
    (h : ∀ ch ∈ children, (d.initiate_child ch.name profile).isOk = true) :
    initiateChildren d profile children =
      (children.flatMap fun ch =>
        Event.initiateChild ch.name profile ::
          (okLogs (d.initiate_child ch.name profile)).map
            fun l => Event.logMessage profile l.message,
       .ok ()) := by
  induction children with
  | nil => simp [initiateChildren]
  | cons ch rest ih =>
    have hch := h ch (by simp)
    rcases hres : d.initiate_child ch.name profile with e | logs
    · rw [hres] at hch
      simp [Except.isOk, Except.toBool] at hch
    · have ih' := ih fun x hx => h x (by simp [hx])
      simp [initiateChildren, hres, ih', okLogs]

/-- C7: for a definition with truthy `initiate`, `start` performs `load`
(whose trace it extends and which leaves `enabled = true` persisted), then
for every child in order calls the daemon's `initiate(childName, profile)`
and persists exactly one LogMessage per returned log line, associated
with the definition's profile. -/
theorem start_initiates_children_and_logs (c : Connection) (d : Daemon)
    (certs : List Certificate)
    (hload : (c.load d certs).result = .ok ())
    (hinit : pyTruthy c.initiate = true)
    (hch : ∀ ch ∈ c.server_children,
      (d.initiate_child ch.name c.profile).isOk = true) :
    (c.start d certs).result = .ok () ∧
    (c.start d certs).conn.enabled = true ∧
    (c.start d certs).trace = (c.load d certs).trace ++
      (c.server_children.flatMap fun ch =>
        Event.initiateChild ch.name c.profile ::
          (okLogs (d.initiate_child ch.name c.profile)).map
            fun l => Event.logMessage c.profile l.message) := by
  have hconn := load_conn_eq c d certs
  refine ⟨?_, ?_, ?_⟩ <;>
    simp [Connection.start, hload, hconn, hinit,
      initiateChildren_ok d c.profile c.server_children hch, Except.mapError]

/-- The site-to-site "office" fixture with one child "net-net". -/
def officeConn : Connection where
  profile := "office"
  version := "2"
  pool := none
  send_certreq := none
  enabled := false
  connection_type := "site_to_site"
  initiate := some true
  server_children := [{ name := "net-net", childDict := .dict [] }]
  server_local_addresses := ["10.0.0.1"]
  server_remote_addresses := ["10.0.0.2"]
  server_proposals := ["default"]
  server_local := []
  server_remote := []

/-- A daemon whose `initiate` returns the single log line
"established". -/
def officeDaemon : Daemon :=
  { okDaemon with initiate_child := fun _ _ => .ok [⟨"established"⟩] }

/-- Witness for C7 (the spec's scenario): starting "office" succeeds,
leaves `enabled = true`, and appends to the load trace exactly one
initiate call for "net-net" under "office" followed by exactly one
persisted LogMessage "established". -/
theorem start_initiates_children_and_logs_witness :
    (officeConn.start officeDaemon []).result = .ok () ∧
    (officeConn.start officeDaemon []).conn.enabled = true ∧
    (officeConn.start officeDaemon []).trace =
      (officeConn.load officeDaemon []).trace ++
        [Event.initiateChild "net-net" "office",
         Event.logMessage "office" "established"] := by
  obtain ⟨h1, h2, h3⟩ :=
    start_initiates_children_and_logs officeConn officeDaemon []
      rfl rfl (by
        intro ch hch
        have hc : ch = { name := "net-net", childDict := .dict [] } := by
          simpa [officeConn] using hch
        subst hc
        rfl)
  exact ⟨h1, h2, by rw [h3]; rfl⟩

/-! ### C8 — cascade delete leaves no residual rows -/

/-- A child surviving the per-child loop was already present and matches
none of the processed child ids. -/
theorem foldDelete_children_mem (ids : List Nat) (db : SpecificDB)
    (ch : ChildRow) (h : ch ∈ (ids.foldl deleteChildRows db).children) :
    ch ∈ db.children ∧ ∀ i ∈ ids, ch.id ≠ i := by
  induction ids generalizing db with
  | nil => simpa using h
  | cons i rest ih =>
    obtain ⟨h1, h2⟩ := ih (deleteChildRows db i) h
    have h3 : ch ∈ db.children ∧ ch.id ≠ i := by
      simpa [deleteChildRows, List.mem_filter] using h1
    refine ⟨h3.1, ?_⟩
    intro j hj
    rcases List.mem_cons.mp hj with hj | hj
    · exact hj ▸ h3.2
    · exact h2 j hj

/-- A proposal surviving the per-child loop was already present and
references none of the processed child ids. -/
theorem foldDelete_proposals_mem (ids : List Nat) (db : SpecificDB)
    (p : ProposalRow) (h : p ∈ (ids.foldl deleteChildRows db).proposals) :
    p ∈ db.proposals ∧ ∀ i ∈ ids, p.child ≠ some i := by
  induction ids generalizing db with
  | nil => simpa using h
  | cons i rest ih =>
    obtain ⟨h1, h2⟩ := ih (deleteChildRows db i) h
    have h3 : p ∈ db.proposals ∧ p.child ≠ some i := by
      simpa [deleteChildRows, List.mem_filter] using h1
    refine ⟨h3.1, ?_⟩
    intro j hj
    rcases List.mem_cons.mp hj with hj | hj
    · exact hj ▸ h3.2
    · exact h2 j hj

/-- An address surviving the per-child loop was already present and its
traffic-selector keys reference none of the processed child ids. -/
theorem foldDelete_addresses_mem (ids : List Nat) (db : SpecificDB)
    (a : AddressRow) (h : a ∈ (ids.foldl deleteChildRows db).addresses) :
    a ∈ db.addresses ∧
      ∀ i ∈ ids, a.local_ts ≠ some i ∧ a.remote_ts ≠ some i := by
  induction ids generalizing db with
  | nil => simpa using h
  | cons i rest ih =>
    obtain ⟨h1, h2⟩ := ih (deleteChildRows db i) h
    have h3 : a ∈ db.addresses ∧ a.remote_ts ≠ some i ∧
        a.local_ts ≠ some i := by
      simpa [deleteChildRows, List.mem_filter, and_assoc] using h1
    refine ⟨h3.1, ?_⟩
    intro j hj
    rcases List.mem_cons.mp hj with hj | hj
    · exact hj ▸ ⟨h3.2.2, h3.2.1⟩
    · exact h2 j hj

/-- The per-child loop never touches the authentications table. -/
theorem foldDelete_authentications (ids : List Nat) (db : SpecificDB) :
    (ids.foldl deleteChildRows db).authentications = db.authentications := by
  induction ids generalizing db with
  | nil => rfl
  | cons i rest ih => exact (ih (deleteChildRows db i)).trans rfl

/-- C8: after `delete_all_connected_models` runs for a definition, no
Child row of the definition, no Proposal row referencing the definition
directly or through one of its children, no Address row referencing it
through any of its four foreign keys, and no Authentication row attached
to it as local or remote endpoint remains. -/
theorem cascade_delete_no_residual (db : SpecificDB) (inst : Nat) :
    (∀ ch ∈ (delete_all_connected_models db inst).children,
      ch.connection ≠ inst) ∧
    (∀ p ∈ (delete_all_connected_models db inst).proposals,
      p.connection ≠ some inst ∧
      ∀ ch ∈ db.children, ch.connection = inst → p.child ≠ some ch.id) ∧
    (∀ a ∈ (delete_all_connected_models db inst).addresses,
      a.local_addresses ≠ some inst ∧ a.remote_addresses ≠ some inst ∧
      ∀ ch ∈ db.children, ch.connection = inst →
        a.local_ts ≠ some ch.id ∧ a.remote_ts ≠ some ch.id) ∧
    (∀ a ∈ (delete_all_connected_models db inst).authentications,
      a.localId ≠ some inst ∧ a.remoteId ≠ some inst) := by
  refine ⟨?_, ?_, ?_, ?_⟩
  · intro ch hmem
    have hmem' : ch ∈ (((db.children.filter fun x => x.connection = inst).map
        (fun x => x.id)).foldl deleteChildRows db).children := hmem
    obtain ⟨h1, h2⟩ := foldDelete_children_mem _ db ch hmem'
    intro hconn
    exact h2 ch.id (List.mem_map.mpr ⟨ch, List.mem_filter.mpr
      ⟨h1, by simp [hconn]⟩, rfl⟩) rfl
  · intro p hmem
    have hmem' : p ∈ ((((db.children.filter fun x => x.connection = inst).map
        (fun x => x.id)).foldl deleteChildRows db).proposals).filter
        (fun q => q.connection ≠ some inst) := hmem
    have hmem2 := List.mem_filter.mp hmem'
    obtain ⟨h1, h2⟩ := foldDelete_proposals_mem _ db p hmem2.1
    refine ⟨of_decide_eq_true hmem2.2, ?_⟩
    intro ch hch hcheq
    exact h2 ch.id (List.mem_map.mpr ⟨ch, List.mem_filter.mpr
      ⟨hch, by simp [hcheq]⟩, rfl⟩)
  · intro a hmem
    have hmem' : a ∈ (((((db.children.filter fun x => x.connection = inst).map
        (fun x => x.id)).foldl deleteChildRows db).addresses).filter
        (fun q => q.local_addresses ≠ some inst)).filter
        (fun q => q.remote_addresses ≠ some inst) := hmem
    have hm1 := List.mem_filter.mp hmem'
    have hm2 := List.mem_filter.mp hm1.1
    obtain ⟨h1, h2⟩ := foldDelete_addresses_mem _ db a hm2.1
    refine ⟨of_decide_eq_true hm2.2, of_decide_eq_true hm1.2, ?_⟩
    intro ch hch hcheq
    exact h2 ch.id (List.mem_map.mpr ⟨ch, List.mem_filter.mpr
      ⟨hch, by simp [hcheq]⟩, rfl⟩)
  · intro a hmem
    have hmem' : a ∈ (((((db.children.filter fun x => x.connection = inst).map
        (fun x => x.id)).foldl deleteChildRows db).authentications).filter
        (fun q => q.localId ≠ some inst)).filter
        (fun q => q.remoteId ≠ some inst) := hmem
    have hm1 := List.mem_filter.mp hmem'
    have hm2 := List.mem_filter.mp hm1.1
    exact ⟨of_decide_eq_true hm2.2, of_decide_eq_true hm1.2⟩

/-- The spec's cascade-delete scenario: definition 1 with two children
(ids 10, 11), each with one proposal and two addresses, connection-level
proposals and addresses, both auth endpoints populated — plus unrelated
rows of definition 2 that must survive. -/
def cascadeDB : SpecificDB where
  children := [⟨10, 1⟩, ⟨11, 1⟩, ⟨20, 2⟩]
  proposals := [⟨100, some 10, none⟩, ⟨101, some 11, none⟩,
    ⟨102, none, some 1⟩, ⟨103, none, some 2⟩]
  addresses := [⟨200, some 10, none, none, none⟩,
    ⟨201, none, some 10, none, none⟩,
    ⟨202, some 11, none, none, none⟩,
    ⟨203, none, some 11, none, none⟩,
    ⟨204, none, none, some 1, none⟩,
    ⟨205, none, none, none, some 1⟩,
    ⟨206, none, none, some 2, none⟩]
  authentications := [⟨300, some 1, none⟩, ⟨301, none, some 1⟩,
    ⟨302, some 2, none⟩]

/-- Witness for C8: in the scenario database, the unrelated proposal row
that survives deleting definition 1 does not reference definition 1, nor
any of its children. -/
theorem cascade_delete_no_residual_witness :
    (⟨103, none, some 2⟩ : ProposalRow).connection ≠ some 1 ∧
    ∀ ch ∈ cascadeDB.children, ch.connection = 1 →
      (⟨103, none, some 2⟩ : ProposalRow).child ≠ some ch.id :=
  (cascade_delete_no_residual cascadeDB 1).2.1 ⟨103, none, some 2⟩ (by decide)

end StrongMan
